import Mathlib

/-!
Shallow embedding of the iOS `CameraController` of the camera-preview
plugin (src/src/definitions.ts, Swift part).  Swift reference semantics is
modelled by value: after device selection every embedded operation reads
and mutates the device exclusively through the `currentCamera` field, so
value semantics agrees with the source's reference semantics on the
operations embedded here.  Asynchronous completion handlers are modelled
as completion identifiers (`Nat`); invoking a handler is modelled as an
emitted `Event`.  Machine floating point (`CGFloat`) is modelled as `ℚ`.
-/

namespace CameraPreview

/-- The `CameraControllerError` enum of the source. -/
inductive CameraControllerError
  | captureSessionAlreadyRunning
  | captureSessionIsMissing
  | inputsAreInvalid
  | invalidOperation
  | noCamerasAvailable
  | unknown
deriving DecidableEq, Repr

/-- Errors that can propagate out of the controller's methods: the
controller's own error enum, plus the foreign errors thrown by
`lockForConfiguration` and by the `AVCaptureDeviceInput` initializer
(which the source sometimes rethrows unwrapped). -/
inductive Err
  | cam (e : CameraControllerError)
  | lockFailed
  | inputCreationFailed
deriving DecidableEq, Repr

/-- AVCaptureDevice.Position. -/
inductive DevicePosition | front | back | unspecified
deriving DecidableEq, Repr

/-- The source's public `CameraPosition` enum. -/
inductive CameraPosition | front | rear
deriving DecidableEq, Repr

/-- AVCaptureDevice.DeviceType, restricted to the two types the source
queries. -/
inductive DeviceType | builtInTripleCamera | builtInWideAngleCamera
deriving DecidableEq, Repr

/-- AVCaptureDevice.FlashMode. -/
inductive FlashMode | off | on | auto
deriving DecidableEq, Repr

/-- AVCaptureDevice.TorchMode. -/
inductive TorchMode | off | on | auto
deriving DecidableEq, Repr

/-- AVCaptureDevice.FocusMode, restricted to what the source uses. -/
inductive FocusMode | locked | autoFocus | continuousAutoFocus
deriving DecidableEq, Repr

/-- AVCaptureDevice.ExposureMode. -/
inductive ExposureMode | locked | autoExpose | continuousAutoExposure | custom
deriving DecidableEq, Repr

/-- White-balance modes, restricted to the core AVFoundation ones. -/
inductive WhiteBalanceMode | locked | autoWB | continuousWB
deriving DecidableEq, Repr

/-- Raw value of an exposure mode, as reported by `getExposureMode`. -/
def ExposureMode.rawValue : ExposureMode → String
  | ExposureMode.locked => "lock"
  | ExposureMode.autoExpose => "auto"
  | ExposureMode.continuousAutoExposure => "continuous"
  | ExposureMode.custom => "custom"

/-- Raw value of a white-balance mode, as reported by
`getWhiteBalanceMode` and `getSupportedWhiteBalanceModes`. -/
def WhiteBalanceMode.rawValue : WhiteBalanceMode → String
  | WhiteBalanceMode.locked => "lock"
  | WhiteBalanceMode.autoWB => "auto"
  | WhiteBalanceMode.continuousWB => "continuous"

/-- The part of `AVCaptureDevice.activeFormat` the source reads. -/
structure ActiveFormat where
  videoMaxZoomFactor : ℚ
  supportedSizes : List (Nat × Nat)
deriving DecidableEq, Repr

/-- An AVCaptureDevice as far as the source touches it.  The two `Fails`
flags model whether the throwing foreign calls `lockForConfiguration()`
and `AVCaptureDeviceInput(device:)` throw for this device. -/
structure CaptureDevice where
  position : DevicePosition
  deviceType : DeviceType
  activeFormat : ActiveFormat
  videoZoomFactor : ℚ
  hasFlash : Bool
  hasTorch : Bool
  isTorchAvailable : Bool
  torchMode : TorchMode
  focusMode : FocusMode
  exposureMode : ExposureMode
  whiteBalanceMode : WhiteBalanceMode
  supportedWhiteBalanceModes : List WhiteBalanceMode
  exposureTargetBias : ℚ
  minExposureTargetBias : ℚ
  maxExposureTargetBias : ℚ
  continuousAutoFocusSupported : Bool
  continuousAutoExposureSupported : Bool
  lockForConfigurationFails : Bool
  deviceInputCreationFails : Bool
deriving DecidableEq, Repr

/-- An AVCaptureSession as far as the source touches it.  Device inputs
are identified by `Nat` tokens; `configurationDepth` counts
`beginConfiguration` calls not yet matched by `commitConfiguration`. -/
structure CaptureSession where
  isRunning : Bool
  sessionPresetPhoto : Bool
  inputs : List Nat
  outputAttached : Bool
  configurationDepth : Nat
  canAddInputOk : Bool
  canAddOutputOk : Bool
deriving DecidableEq, Repr

/-- The AVCapturePhotoOutput fields the source touches. -/
structure PhotoOutput where
  supportedFlashModes : List FlashMode
  isHighResolutionCaptureEnabled : Bool
  sceneMonitoringFlashMode : Option FlashMode
deriving DecidableEq, Repr

/-- The stored properties of `class CameraController`.  Completion blocks
are modelled by the identifier of the pending call (`none` when the Swift
optional is nil). -/
structure CameraController where
  captureSession : Option CaptureSession
  photoOutput : PhotoOutput
  photoCaptureCompletionBlock : Option Nat
  sampleBufferCaptureCompletionBlock : Option Nat
  frontCamera : Option CaptureDevice
  rearCamera : Option CaptureDevice
  currentCamera : Option CaptureDevice
  cameraInput : Option Nat
  nextInputId : Nat
  flashMode : FlashMode
  videoZoomFactor : ℚ
deriving DecidableEq, Repr

/-- Outcome delivered to a completion handler: a decoded image, or an
error. -/
inductive CaptureOutcome
  | image
  | err (e : Err)
deriving DecidableEq, Repr

/-- Observable actions of the controller: invoking a completion handler,
or issuing a hardware photo capture (`photoOutput.capturePhoto`) with the
flash mode carried by its settings. -/
inductive Event
  | fulfill (cid : Nat) (outcome : CaptureOutcome)
  | hardwareCapture (flash : FlashMode)
deriving DecidableEq, Repr

/-- The devices the platform reports through `AVCaptureDevice.default`
for the three (deviceType, position) queries the source makes. -/
structure DeviceEnv where
  tripleRear : Option CaptureDevice
  wideRear : Option CaptureDevice
  wideFront : Option CaptureDevice
deriving DecidableEq, Repr

/-- Whether the controller's capture session exists and is running. -/
def sessionIsRunning (s : CameraController) : Bool :=
  match s.captureSession with
  | none => false
  | some cs => cs.isRunning

/-- The source's `stop()`: `self.captureSession?.stopRunning()`.  It
touches nothing but the running flag; in particular it invokes no pending
completion handler and clears no completion slot. -/
def stop (s : CameraController) : CameraController :=
  match s.captureSession with
  | none => s
  | some cs => { s with captureSession := some { cs with isRunning := false } }

/-- The source's `captureImage(completion:)`.  Returns the new controller
state and the emitted events. -/
def captureImage (completion : Nat) (s : CameraController) :
    CameraController × List Event :=
  match s.captureSession with
  | none =>
    (s, [Event.fulfill completion
          (CaptureOutcome.err (Err.cam CameraControllerError.captureSessionIsMissing))])
  | some captureSession =>
    if captureSession.isRunning then
      ({ s with photoCaptureCompletionBlock := some completion },
       [Event.hardwareCapture s.flashMode])
    else
      (s, [Event.fulfill completion
            (CaptureOutcome.err (Err.cam CameraControllerError.captureSessionIsMissing))])

/-- The source's `captureSample(completion:)`. -/
def captureSample (completion : Nat) (s : CameraController) :
    CameraController × List Event :=
  match s.captureSession with
  | none =>
    (s, [Event.fulfill completion
          (CaptureOutcome.err (Err.cam CameraControllerError.captureSessionIsMissing))])
  | some captureSession =>
    if captureSession.isRunning then
      ({ s with sampleBufferCaptureCompletionBlock := some completion }, [])
    else
      (s, [Event.fulfill completion
            (CaptureOutcome.err (Err.cam CameraControllerError.captureSessionIsMissing))])

/-- The delegate callback `photoOutput(_:didFinishProcessingPhoto:error:)`.
Parameters: the hardware-reported error, and whether the photo data
decodes to an image.  Note the source never clears
`photoCaptureCompletionBlock` after invoking it. -/
def photoOutputDidFinishProcessingPhoto (error : Option Err)
    (imageDecodable : Bool) (s : CameraController) :
    CameraController × List Event :=
  match error with
  | some e =>
    (s, match s.photoCaptureCompletionBlock with
        | some cid => [Event.fulfill cid (CaptureOutcome.err e)]
        | none => [])
  | none =>
    if imageDecodable then
      (s, match s.photoCaptureCompletionBlock with
          | some cid => [Event.fulfill cid CaptureOutcome.image]
          | none => [])
    else
      (s, match s.photoCaptureCompletionBlock with
          | some cid => [Event.fulfill cid
              (CaptureOutcome.err (Err.cam CameraControllerError.unknown))]
          | none => [])

/-- UIPinchGestureRecognizer state as the source switches on it. -/
inductive PinchPhase | began | changed | ended | other
deriving DecidableEq, Repr

/-- The source's `handlePinch(_:)`.  `began`/`changed` clamp the raw
gesture scale with `minMaxZoom` and write it to the device;
`ended` copies the device zoom into the controller's `videoZoomFactor`
field.  Configuration failures are swallowed. -/
def handlePinch (state : PinchPhase) (scale : ℚ) (s : CameraController) :
    CameraController :=
  match s.currentCamera with
  | none => s
  | some device =>
    match state with
    | PinchPhase.began | PinchPhase.changed =>
      let newScaleFactor := max 1 (min scale device.activeFormat.videoMaxZoomFactor)
      if device.lockForConfigurationFails then s
      else { s with currentCamera := some { device with videoZoomFactor := newScaleFactor } }
    | PinchPhase.ended =>
      { s with videoZoomFactor := device.videoZoomFactor }
    | PinchPhase.other => s

/-- The source's private `initializeCameraDevices(forPosition:)`.  Field
mutations made before the guard persist even when it throws, so the
result carries both the updated state and the optional error. -/
def initializeCameraDevices (env : DeviceEnv) (cameraPosition : CameraPosition)
    (s : CameraController) : CameraController × Option Err :=
  let s :=
    match env.tripleRear with
    | some rearCamera => { s with rearCamera := some rearCamera }
    | none => { s with rearCamera := env.wideRear }
  let s :=
    match env.wideFront with
    | some frontCamera => { s with frontCamera := some frontCamera }
    | none => s
  if (cameraPosition = CameraPosition.rear ∧ s.rearCamera.isSome = true) ∨
     (cameraPosition = CameraPosition.front ∧ s.frontCamera.isSome = true) then
    ({ s with currentCamera :=
        if cameraPosition = CameraPosition.rear then s.rearCamera else s.frontCamera },
     none)
  else
    (s, some (Err.cam CameraControllerError.noCamerasAvailable))

/-- The source's private `initializeCameraInput()`.  A throw of the
`AVCaptureDeviceInput` initializer is caught and rethrown as
`noCamerasAvailable`; note `self.cameraInput` is assigned even when
`canAddInput` declines. -/
def initializeCameraInput (s : CameraController) : CameraController × Option Err :=
  match s.captureSession with
  | none => (s, some (Err.cam CameraControllerError.captureSessionIsMissing))
  | some captureSession =>
    match s.currentCamera with
    | none => (s, some (Err.cam CameraControllerError.noCamerasAvailable))
    | some camera =>
      if camera.deviceInputCreationFails then
        (s, some (Err.cam CameraControllerError.noCamerasAvailable))
      else
        let cameraInput := s.nextInputId
        let captureSession :=
          if captureSession.canAddInputOk then
            { captureSession with inputs := captureSession.inputs ++ [cameraInput] }
          else captureSession
        ({ s with captureSession := some captureSession,
                  cameraInput := some cameraInput,
                  nextInputId := s.nextInputId + 1 }, none)

/-- The source's private `configureCameraSettings()`: continuous
autofocus and auto-exposure when supported, and the baseline zoom bump to
2.0 exactly when the current device is the triple camera.  A throw of
`lockForConfiguration` propagates unwrapped. -/
def configureCameraSettings (s : CameraController) : CameraController × Option Err :=
  match s.currentCamera with
  | none => (s, some (Err.cam CameraControllerError.noCamerasAvailable))
  | some cameraDevice =>
    if cameraDevice.lockForConfigurationFails then (s, some Err.lockFailed)
    else
      let cameraDevice :=
        if cameraDevice.continuousAutoFocusSupported then
          { cameraDevice with focusMode := FocusMode.continuousAutoFocus }
        else cameraDevice
      let cameraDevice :=
        if cameraDevice.continuousAutoExposureSupported then
          { cameraDevice with exposureMode := ExposureMode.continuousAutoExposure }
        else cameraDevice
      let cameraDevice :=
        if cameraDevice.deviceType = DeviceType.builtInTripleCamera then
          { cameraDevice with videoZoomFactor := 2 }
        else cameraDevice
      ({ s with currentCamera := some cameraDevice }, none)

/-- A freshly constructed `AVCaptureSession()`. -/
def freshCaptureSession : CaptureSession :=
  { isRunning := false, sessionPresetPhoto := false, inputs := [],
    outputAttached := false, configurationDepth := 0,
    canAddInputOk := true, canAddOutputOk := true }

/-- The source's `prepare(cameraPosition:enableHighResolution:completionHandler:)`.
Unconditionally installs a fresh session (there is no already-running
check), initializes devices and input, attaches the photo output, starts
running, applies `configureCameraSettings`, and reports the first error
(if any) through the completion handler, here the second component. -/
def prepare (env : DeviceEnv) (cameraPosition : Option CameraPosition)
    (isHighResolutionPhotoEnabled : Bool) (s : CameraController) :
    CameraController × Option Err :=
  let captureSession :=
    if isHighResolutionPhotoEnabled then
      { freshCaptureSession with sessionPresetPhoto := true }
    else freshCaptureSession
  let s := { s with captureSession := some captureSession }
  match initializeCameraDevices env (cameraPosition.getD CameraPosition.rear) s with
  | (s, some e) => (s, some e)
  | (s, none) =>
    match initializeCameraInput s with
    | (s, some e) => (s, some e)
    | (s, none) =>
      let po := { s.photoOutput with
        isHighResolutionCaptureEnabled := isHighResolutionPhotoEnabled }
      let s := { s with photoOutput := po }
      let s :=
        match s.captureSession with
        | some cs =>
          if cs.canAddOutputOk then
            { s with captureSession := some { cs with outputAttached := true } }
          else s
        | none => s
      let s :=
        match s.captureSession with
        | some cs => { s with captureSession := some { cs with isRunning := true } }
        | none => s
      configureCameraSettings s

/-- The nested `switchToFrontCamera()` of `switchCameras`.  Note the
current input is removed before the new input is built, so a throw of
the input initializer leaves the session without an input. -/
def switchToFrontCamera (s : CameraController) : CameraController × Option Err :=
  match s.captureSession, s.cameraInput, s.frontCamera with
  | some captureSession, some cameraInput, some frontCamera =>
    if cameraInput ∈ captureSession.inputs then
      let captureSession :=
        { captureSession with inputs := captureSession.inputs.erase cameraInput }
      let s := { s with captureSession := some captureSession }
      if frontCamera.deviceInputCreationFails then
        (s, some Err.inputCreationFailed)
      else
        let newCameraInput := s.nextInputId
        if captureSession.canAddInputOk then
          let captureSession :=
            { captureSession with inputs := captureSession.inputs ++ [newCameraInput] }
          ({ s with captureSession := some captureSession,
                    cameraInput := some newCameraInput,
                    currentCamera := some frontCamera,
                    nextInputId := s.nextInputId + 1 }, none)
        else
          (s, some (Err.cam CameraControllerError.invalidOperation))
    else (s, some (Err.cam CameraControllerError.invalidOperation))
  | _, _, _ => (s, some (Err.cam CameraControllerError.invalidOperation))

/-- The nested `switchToRearCamera()` of `switchCameras`. -/
def switchToRearCamera (s : CameraController) : CameraController × Option Err :=
  match s.captureSession, s.cameraInput, s.rearCamera with
  | some captureSession, some cameraInput, some rearCamera =>
    if cameraInput ∈ captureSession.inputs then
      let captureSession :=
        { captureSession with inputs := captureSession.inputs.erase cameraInput }
      let s := { s with captureSession := some captureSession }
      if rearCamera.deviceInputCreationFails then
        (s, some Err.inputCreationFailed)
      else
        let newCameraInput := s.nextInputId
        if captureSession.canAddInputOk then
          let captureSession :=
            { captureSession with inputs := captureSession.inputs ++ [newCameraInput] }
          ({ s with captureSession := some captureSession,
                    cameraInput := some newCameraInput,
                    currentCamera := some rearCamera,
                    nextInputId := s.nextInputId + 1 }, none)
        else
          (s, some (Err.cam CameraControllerError.invalidOperation))
    else (s, some (Err.cam CameraControllerError.invalidOperation))
  | _, _, _ => (s, some (Err.cam CameraControllerError.invalidOperation))

/-- Increment of the begin/commit bracket depth (`beginConfiguration`). -/
def beginConfiguration (s : CameraController) : CameraController :=
  match s.captureSession with
  | some cs =>
    let cs := { cs with configurationDepth := cs.configurationDepth + 1 }
    { s with captureSession := some cs }
  | none => s

/-- Decrement of the begin/commit bracket depth (`commitConfiguration`). -/
def commitConfiguration (s : CameraController) : CameraController :=
  match s.captureSession with
  | some cs =>
    let cs := { cs with configurationDepth := cs.configurationDepth - 1 }
    { s with captureSession := some cs }
  | none => s

/-- The source's `switchCameras()`.  After `beginConfiguration`, the
`unspecified` position case returns directly, and a throw from the nested
switch helpers propagates directly: both skip `commitConfiguration`,
which only the successful switch path reaches (after a `try?` of
`configureCameraSettings` whose error is discarded). -/
def switchCameras (s : CameraController) : CameraController × Option Err :=
  match s.captureSession with
  | none => (s, some (Err.cam CameraControllerError.captureSessionIsMissing))
  | some captureSession =>
    if captureSession.isRunning then
      match s.currentCamera with
      | none => (s, some (Err.cam CameraControllerError.noCamerasAvailable))
      | some device =>
        let s := beginConfiguration s
        match device.position with
        | DevicePosition.unspecified => (s, none)
        | DevicePosition.front =>
          match switchToRearCamera s with
          | (s, some e) => (s, some e)
          | (s, none) => (commitConfiguration (configureCameraSettings s).1, none)
        | DevicePosition.back =>
          match switchToFrontCamera s with
          | (s, some e) => (s, some e)
          | (s, none) => (commitConfiguration (configureCameraSettings s).1, none)
    else (s, some (Err.cam CameraControllerError.captureSessionIsMissing))

/-- The source's `setFlashMode(flashMode:)`.  Unsupported modes return
silently before any mutation; supported modes switch an active torch off,
store the mode, and install scene-monitoring settings.  A
`lockForConfiguration` throw is caught and rethrown as
`invalidOperation`. -/
def setFlashMode (flashMode : FlashMode) (s : CameraController) :
    CameraController × Option Err :=
  match s.currentCamera with
  | none => (s, some (Err.cam CameraControllerError.noCamerasAvailable))
  | some device =>
    if flashMode ∈ s.photoOutput.supportedFlashModes then
      if device.lockForConfigurationFails then
        (s, some (Err.cam CameraControllerError.invalidOperation))
      else
        let device :=
          if device.hasTorch ∧ device.isTorchAvailable ∧ device.torchMode = TorchMode.on
          then { device with torchMode := TorchMode.off }
          else device
        let po := { s.photoOutput with sceneMonitoringFlashMode := some flashMode }
        ({ s with currentCamera := some device,
                  flashMode := flashMode,
                  photoOutput := po },
         none)
    else (s, none)

/-- The source's `getSupportedPictureSizes()`. -/
def getSupportedPictureSizes (s : CameraController) : List (Nat × Nat) :=
  match s.currentCamera with
  | none => []
  | some device => device.activeFormat.supportedSizes

/-- The source's `getExposureCompensation()`. -/
def getExposureCompensation (s : CameraController) : ℚ :=
  match s.currentCamera with
  | none => 0
  | some device => device.exposureTargetBias

/-- The source's `getExposureCompensationRange()`. -/
def getExposureCompensationRange (s : CameraController) : List ℚ :=
  match s.currentCamera with
  | none => [0, 0]
  | some device => [device.minExposureTargetBias, device.maxExposureTargetBias]

/-- The source's `getExposureMode()`. -/
def getExposureMode (s : CameraController) : String :=
  match s.currentCamera with
  | none => "unknown"
  | some device => device.exposureMode.rawValue

/-- The source's `getWhiteBalanceMode()`. -/
def getWhiteBalanceMode (s : CameraController) : String :=
  match s.currentCamera with
  | none => "unknown"
  | some device => device.whiteBalanceMode.rawValue

/-- The source's `getSupportedWhiteBalanceModes()`. -/
def getSupportedWhiteBalanceModes (s : CameraController) : List String :=
  match s.currentCamera with
  | none => []
  | some device => device.supportedWhiteBalanceModes.map WhiteBalanceMode.rawValue

/-- The source's throwing `getSupportedFlashModes()`: the only getter
that can fail, and only on its no-current-device guard. -/
def getSupportedFlashModes (s : CameraController) : Except Err (List String) :=
  match s.currentCamera with
  | none => Except.error (Err.cam CameraControllerError.noCamerasAvailable)
  | some device =>
    let supportedFlashModesAsStrings : List String :=
      if device.hasFlash then
        s.photoOutput.supportedFlashModes.map (fun flashMode =>
          match flashMode with
          | FlashMode.off => "off"
          | FlashMode.on => "on"
          | FlashMode.auto => "auto")
      else []
    let supportedFlashModesAsStrings :=
      if device.hasTorch then supportedFlashModesAsStrings ++ ["torch"]
      else supportedFlashModesAsStrings
    Except.ok supportedFlashModesAsStrings

/-- A device matching the type and position of the
`AVCaptureDevice.default` query that reported it, at the
hardware-default zoom factor 1. -/
def deviceOk (t : DeviceType) (p : DevicePosition) (d : CaptureDevice) : Prop :=
  d.deviceType = t ∧ d.position = p ∧ d.videoZoomFactor = 1

/-- Well-formedness of a device environment: each device reported by an
`AVCaptureDevice.default(type, for:, position:)` query actually has that
type and position, and sits at the hardware-default zoom factor 1. -/
def deviceEnvWF (env : DeviceEnv) : Prop :=
  (∀ d, env.tripleRear = some d →
    deviceOk DeviceType.builtInTripleCamera DevicePosition.back d) ∧
  (∀ d, env.wideRear = some d →
    deviceOk DeviceType.builtInWideAngleCamera DevicePosition.back d) ∧
  (∀ d, env.wideFront = some d →
    deviceOk DeviceType.builtInWideAngleCamera DevicePosition.front d)

/-- The rear device `initializeCameraDevices` ends up selecting: the
triple camera when present, else the wide-angle rear camera. -/
def rearPick (env : DeviceEnv) : Option CaptureDevice :=
  match env.tripleRear with
  | some d => some d
  | none => env.wideRear

/-- The effect of a successful `configureCameraSettings` run on the
current device. -/
def baselineConfigured (d : CaptureDevice) : CaptureDevice :=
  let d := if d.continuousAutoFocusSupported then
      { d with focusMode := FocusMode.continuousAutoFocus } else d
  let d := if d.continuousAutoExposureSupported then
      { d with exposureMode := ExposureMode.continuousAutoExposure } else d
  if d.deviceType = DeviceType.builtInTripleCamera then
    { d with videoZoomFactor := 2 } else d

/- Concrete fixtures used by witnesses and counterexamples. -/

/-- A photo output supporting the three AVFoundation flash modes. -/
def defaultPhotoOutput : PhotoOutput :=
  { supportedFlashModes := [FlashMode.off, FlashMode.on, FlashMode.auto],
    isHighResolutionCaptureEnabled := false,
    sceneMonitoringFlashMode := none }

/-- A single wide-angle rear camera at default zoom. -/
def wideRearDevice : CaptureDevice :=
  { position := DevicePosition.back,
    deviceType := DeviceType.builtInWideAngleCamera,
    activeFormat := { videoMaxZoomFactor := 4, supportedSizes := [(4032, 3024), (1920, 1080)] },
    videoZoomFactor := 1,
    hasFlash := true, hasTorch := true, isTorchAvailable := true,
    torchMode := TorchMode.off,
    focusMode := FocusMode.locked,
    exposureMode := ExposureMode.locked,
    whiteBalanceMode := WhiteBalanceMode.autoWB,
    supportedWhiteBalanceModes := [WhiteBalanceMode.autoWB, WhiteBalanceMode.continuousWB],
    exposureTargetBias := 0, minExposureTargetBias := -8, maxExposureTargetBias := 8,
    continuousAutoFocusSupported := true, continuousAutoExposureSupported := true,
    lockForConfigurationFails := false, deviceInputCreationFails := false }

/-- A wide-angle front camera (no flash, no torch). -/
def wideFrontDevice : CaptureDevice :=
  { wideRearDevice with position := DevicePosition.front,
                        hasFlash := false, hasTorch := false, isTorchAvailable := false }

/-- A multi-lens (triple camera) rear device. -/
def tripleRearDevice : CaptureDevice :=
  { wideRearDevice with deviceType := DeviceType.builtInTripleCamera }

/-- A running session with one attached input. -/
def runningSession : CaptureSession :=
  { isRunning := true, sessionPresetPhoto := false, inputs := [0],
    outputAttached := true, configurationDepth := 0,
    canAddInputOk := true, canAddOutputOk := true }

/-- A freshly allocated controller (all Swift optionals nil). -/
def emptyController : CameraController :=
  { captureSession := none, photoOutput := defaultPhotoOutput,
    photoCaptureCompletionBlock := none, sampleBufferCaptureCompletionBlock := none,
    frontCamera := none, rearCamera := none, currentCamera := none,
    cameraInput := none, nextInputId := 0,
    flashMode := FlashMode.off, videoZoomFactor := 1 }

/-- A controller with a running session on the wide-angle rear camera. -/
def runningController : CameraController :=
  { emptyController with
    captureSession := some runningSession,
    frontCamera := some wideFrontDevice,
    rearCamera := some wideRearDevice,
    currentCamera := some wideRearDevice,
    cameraInput := some 0, nextInputId := 1 }

/-- The controller after `stop` on the running fixture. -/
def stoppedController : CameraController := stop runningController

/-- The running fixture with a still capture and a sample capture
pending. -/
def pendingController : CameraController :=
  { runningController with photoCaptureCompletionBlock := some 1,
                           sampleBufferCaptureCompletionBlock := some 2 }

/-- A phone exposing only a single wide-angle rear camera. -/
def wideEnv : DeviceEnv :=
  { tripleRear := none, wideRear := some wideRearDevice, wideFront := some wideFrontDevice }

/-- A phone exposing a multi-lens rear camera. -/
def tripleEnv : DeviceEnv :=
  { tripleRear := some tripleRearDevice, wideRear := some wideRearDevice,
    wideFront := some wideFrontDevice }

/-- A rear device reporting `unspecified` position. -/
def unspecifiedDevice : CaptureDevice :=
  { wideRearDevice with position := DevicePosition.unspecified }

/-- The running fixture whose current device reports `unspecified`
position. -/
def unspecifiedController : CameraController :=
  { runningController with currentCamera := some unspecifiedDevice }

/-- A front device whose `AVCaptureDeviceInput` initializer throws. -/
def failingFrontDevice : CaptureDevice :=
  { wideFrontDevice with deviceInputCreationFails := true }

/-- The running fixture (current device rear) whose front device cannot
produce an input. -/
def throwingSwitchController : CameraController :=
  { runningController with frontCamera := some failingFrontDevice }

/-- The gesture sequence began(1.0), changed(1.5), ended, then
began(1.0), changed(1.2), applied to the running fixture (device max
zoom 4). -/
def pinchScenario : CameraController :=
  handlePinch PinchPhase.changed (6/5)
    (handlePinch PinchPhase.began 1
      (handlePinch PinchPhase.ended (3/2)
        (handlePinch PinchPhase.changed (3/2)
          (handlePinch PinchPhase.began 1 runningController))))

/-- The wide rear device with its torch currently on. -/
def torchOnDevice : CaptureDevice :=
  { wideRearDevice with torchMode := TorchMode.on }

/-- The running fixture with the current device's torch on. -/
def torchOnController : CameraController :=
  { runningController with currentCamera := some torchOnDevice }

/- Theorems. -/

/-- Claim C1 counterexample: after `captureImage 1` the pending slot
holds caller 1; a re-entrant `captureImage 2` replaces it, and a
subsequent successful photo callback fulfills caller 2 only — caller 1's
pending completion was replaced, contradicting the claim that the second
capture does not corrupt or replace the first call's pending completion
and that each caller receives exactly one fulfillment. -/
theorem second_capture_replaces_first_slot :
    ((captureImage 1 runningController).1).photoCaptureCompletionBlock = some 1 ∧
    ((captureImage 2 (captureImage 1 runningController).1).1).photoCaptureCompletionBlock = some 2 ∧
    (photoOutputDidFinishProcessingPhoto none true
        (captureImage 2 (captureImage 1 runningController).1).1).2
      = [Event.fulfill 2 CaptureOutcome.image] := by decide

/-- Claim C1 (amended): `captureImage` keeps a single shared completion
slot; a second call while the first is pending overwrites it with the
second caller, and every later photo callback invokes only the currently
stored (second) completion. -/
theorem captureImage_single_slot_overwrite (s : CameraController) (c1 c2 : Nat)
    (hrun : sessionIsRunning s = true) :
    ((captureImage c2 (captureImage c1 s).1).1).photoCaptureCompletionBlock = some c2 ∧
    ∀ err dec, ∃ o,
      (photoOutputDidFinishProcessingPhoto err dec
          (captureImage c2 (captureImage c1 s).1).1).2 = [Event.fulfill c2 o] := by
  rcases hcs : s.captureSession with _ | cs
  · simp [sessionIsRunning, hcs] at hrun
  · have hr : cs.isRunning = true := by simpa [sessionIsRunning, hcs] using hrun
    have h1 : (captureImage c1 s).1 = { s with photoCaptureCompletionBlock := some c1 } := by
      simp [captureImage, hcs, hr]
    have h2 : (captureImage c2 (captureImage c1 s).1).1 =
        { s with photoCaptureCompletionBlock := some c2 } := by
      rw [h1]; simp [captureImage, hcs, hr]
    refine ⟨by rw [h2], ?_⟩
    intro err dec
    rcases err with _ | e
    · cases dec
      · exact ⟨CaptureOutcome.err (Err.cam CameraControllerError.unknown),
          by rw [h2]; simp [photoOutputDidFinishProcessingPhoto]⟩
      · exact ⟨CaptureOutcome.image, by rw [h2]; simp [photoOutputDidFinishProcessingPhoto]⟩
    · exact ⟨CaptureOutcome.err e, by rw [h2]; simp [photoOutputDidFinishProcessingPhoto]⟩

/-- Claim C1 witness: the amended overwrite behaviour at a concrete
running controller and caller ids 1 and 2. -/
theorem captureImage_single_slot_overwrite_witness :
    ((captureImage 2 (captureImage 1 runningController).1).1).photoCaptureCompletionBlock
      = some 2 :=
  (captureImage_single_slot_overwrite runningController 1 2 (by decide)).1

/-- Claim C3 counterexample: stopping with a still capture (caller 1) and
a sample capture (caller 2) pending leaves both completion slots pending
and unfulfilled — `stop` only clears the running flag and invokes no
completion handler, so the pending requests are not fulfilled with
`CaptureSessionIsMissing`. -/
theorem stop_does_not_fulfill_pending :
    (stop pendingController).photoCaptureCompletionBlock = some 1 ∧
    (stop pendingController).sampleBufferCaptureCompletionBlock = some 2 := by decide

/-- Claim C3 (amended): `stop` only resets the session's running flag;
both pending-capture completion slots are left exactly as they were,
fulfilled with nothing. -/
theorem stop_leaves_pending_slots (s : CameraController) :
    (stop s).photoCaptureCompletionBlock = s.photoCaptureCompletionBlock ∧
    (stop s).sampleBufferCaptureCompletionBlock = s.sampleBufferCaptureCompletionBlock ∧
    sessionIsRunning (stop s) = false := by
  rcases hcs : s.captureSession with _ | cs <;> simp [stop, sessionIsRunning, hcs]

/-- Claim C8: a capture request (still photo or sample) issued while the
session is absent or not running leaves the controller state unchanged
and emits exactly one event: the caller's completion fulfilled with
`captureSessionIsMissing` — in particular no hardware capture is
issued. -/
theorem capture_when_not_running_fails_immediately (s : CameraController) (c : Nat)
    (h : sessionIsRunning s = false) :
    captureImage c s =
      (s, [Event.fulfill c (CaptureOutcome.err
            (Err.cam CameraControllerError.captureSessionIsMissing))]) ∧
    captureSample c s =
      (s, [Event.fulfill c (CaptureOutcome.err
            (Err.cam CameraControllerError.captureSessionIsMissing))]) := by
  rcases hcs : s.captureSession with _ | cs
  · simp [captureImage, captureSample, hcs]
  · have h2 : cs.isRunning = false := by simpa [sessionIsRunning, hcs] using h
    simp [captureImage, captureSample, hcs, h2]

/-- Claim C8 witness: the stopped fixture fulfills a still and a sample
request with `captureSessionIsMissing` immediately. -/
theorem capture_when_not_running_fails_immediately_witness :
    captureImage 7 stoppedController =
      (stoppedController, [Event.fulfill 7 (CaptureOutcome.err
        (Err.cam CameraControllerError.captureSessionIsMissing))]) ∧
    captureSample 7 stoppedController =
      (stoppedController, [Event.fulfill 7 (CaptureOutcome.err
        (Err.cam CameraControllerError.captureSessionIsMissing))]) :=
  capture_when_not_running_fails_immediately stoppedController 7 (by decide)

/-- Claim C4 evaluation at the failing input: in the sequence
began(1.0), changed(1.5), ended, began(1.0), changed(1.2), `handlePinch`
clamps the raw gesture scale directly — the committed `videoZoomFactor`
(1.5 after the first gesture) is stored but never read — so the applied
device zoom ends at 1.2, not the 1.8 = 1.5 × 1.2 the claim requires. -/
theorem pinch_scale_not_multiplied :
    (pinchScenario.currentCamera.map CaptureDevice.videoZoomFactor) = some (6/5) ∧
    pinchScenario.videoZoomFactor = 3/2 ∧
    ((6 : ℚ)/5 ≠ 9/5) := by
  refine ⟨?_, ?_, by norm_num⟩ <;>
    norm_num [pinchScenario, handlePinch, runningController, emptyController,
      wideRearDevice, wideFrontDevice, defaultPhotoOutput, runningSession,
      min_def, max_def]

/-- Claim C5 evaluation at the failing inputs: on a running session,
`switchCameras` with an unspecified-position current device returns
successfully, and with a front device whose input initializer throws it
propagates the error; in both cases the configuration depth remains 1 —
`beginConfiguration` was not matched by `commitConfiguration` on these
exit paths. -/
theorem switchCameras_leaves_configuration_open :
    (switchCameras unspecifiedController).2 = none ∧
    ((switchCameras unspecifiedController).1.captureSession.map
        CaptureSession.configurationDepth) = some 1 ∧
    (switchCameras throwingSwitchController).2 = some Err.inputCreationFailed ∧
    ((switchCameras throwingSwitchController).1.captureSession.map
        CaptureSession.configurationDepth) = some 1 := by decide

/-- Claim C2 counterexample: on a phone with a rear camera, `prepare`
succeeds, and a second `prepare` without an intervening `stop` succeeds
again (no error at all), instead of failing with
`captureSessionAlreadyRunning` as the claim states. -/
theorem prepare_twice_no_alreadyRunning_error :
    (prepare wideEnv (some CameraPosition.rear) false emptyController).2 = none ∧
    (prepare wideEnv (some CameraPosition.rear) false
      (prepare wideEnv (some CameraPosition.rear) false emptyController).1).2 = none := by
  decide

/-- `baselineConfigured` does not change the device type. -/
theorem baselineConfigured_deviceType (d : CaptureDevice) :
    (baselineConfigured d).deviceType = d.deviceType := by
  simp only [baselineConfigured]
  repeat' split
  all_goals rfl

/-- `baselineConfigured` does not change the device position. -/
theorem baselineConfigured_position (d : CaptureDevice) :
    (baselineConfigured d).position = d.position := by
  simp only [baselineConfigured]
  repeat' split
  all_goals rfl

/-- The zoom factor `baselineConfigured` leaves on the device: 2 for the
triple camera, the incoming zoom otherwise. -/
theorem baselineConfigured_zoom (d : CaptureDevice) :
    (baselineConfigured d).videoZoomFactor =
      (if d.deviceType = DeviceType.builtInTripleCamera then 2
       else d.videoZoomFactor) := by
  simp only [baselineConfigured]
  repeat' split
  all_goals simp_all

/-- The completion result of `prepare(rear)` depends only on the device
environment: no camera, input-creation failure, lock failure, or
success — in particular it does not depend on the incoming controller
state. -/
theorem prepare_rear_error_eq (env : DeviceEnv) (hr : Bool) (s : CameraController) :
    (prepare env (some CameraPosition.rear) hr s).2 =
      (match rearPick env with
       | none => some (Err.cam CameraControllerError.noCamerasAvailable)
       | some d =>
         if d.deviceInputCreationFails then
           some (Err.cam CameraControllerError.noCamerasAvailable)
         else if d.lockForConfigurationFails then some Err.lockFailed
         else none) := by
  rcases env with ⟨tr, wr, wf⟩
  rcases tr with _ | dt
  · rcases wr with _ | dw
    · cases hr <;> rcases wf with _ | df <;>
        simp [prepare, initializeCameraDevices, initializeCameraInput,
          configureCameraSettings, freshCaptureSession, rearPick]
    · cases hr <;> rcases wf with _ | df <;>
        cases hin : dw.deviceInputCreationFails <;>
        cases hlk : dw.lockForConfigurationFails <;>
        simp [prepare, initializeCameraDevices, initializeCameraInput,
          configureCameraSettings, freshCaptureSession, rearPick, hin, hlk]
  · cases hr <;> rcases wf with _ | df <;>
      cases hin : dt.deviceInputCreationFails <;>
      cases hlk : dt.lockForConfigurationFails <;>
      simp [prepare, initializeCameraDevices, initializeCameraInput,
        configureCameraSettings, freshCaptureSession, rearPick, hin, hlk]

/-- State after a failure-free `prepare(rear)`: the rear pick is stored
as the rear camera and its baseline-configured copy is the current
camera. -/
theorem prepare_rear_state_of_ok (env : DeviceEnv) (hr : Bool) (s : CameraController)
    (d : CaptureDevice) (hd : rearPick env = some d)
    (hin : d.deviceInputCreationFails = false)
    (hlk : d.lockForConfigurationFails = false) :
    (prepare env (some CameraPosition.rear) hr s).1.currentCamera =
      some (baselineConfigured d) ∧
    (prepare env (some CameraPosition.rear) hr s).1.rearCamera = some d := by
  rcases env with ⟨tr, wr, wf⟩
  rcases tr with _ | dt
  · rcases wr with _ | dw
    · simp [rearPick] at hd
    · simp [rearPick] at hd
      subst hd
      cases hr <;> rcases wf with _ | df <;>
        simp [prepare, initializeCameraDevices, initializeCameraInput,
          configureCameraSettings, freshCaptureSession, baselineConfigured, hin, hlk]
  · simp [rearPick] at hd
    subst hd
    cases hr <;> rcases wf with _ | df <;>
      simp [prepare, initializeCameraDevices, initializeCameraInput,
        configureCameraSettings, freshCaptureSession, baselineConfigured, hin, hlk]

/-- A failure-free `prepare(rear)` yields a rear pick whose input
creation and configuration lock both succeed. -/
theorem prepare_rear_ok_flags (env : DeviceEnv) (hr : Bool) (s : CameraController)
    (hok : (prepare env (some CameraPosition.rear) hr s).2 = none) :
    ∃ d0, rearPick env = some d0 ∧ d0.deviceInputCreationFails = false ∧
      d0.lockForConfigurationFails = false := by
  have h1 := prepare_rear_error_eq env hr s
  rw [hok] at h1
  rcases hp : rearPick env with _ | d0
  · simp [hp] at h1
  · simp only [hp] at h1
    cases hin : d0.deviceInputCreationFails <;> simp [hin] at h1
    cases hlk : d0.lockForConfigurationFails <;> simp [hlk] at h1
    exact ⟨d0, rfl, hin, hlk⟩

/-- In a well-formed environment the rear pick sits at zoom 1, has
position back, and is the triple camera exactly when the environment
reported one. -/
theorem rearPick_wf (env : DeviceEnv) (d : CaptureDevice)
    (hwf : deviceEnvWF env) (hp : rearPick env = some d) :
    d.videoZoomFactor = 1 ∧
    (d.deviceType = DeviceType.builtInTripleCamera ↔ env.tripleRear = some d) ∧
    d.position = DevicePosition.back := by
  obtain ⟨hwt, hwr, -⟩ := hwf
  rcases htr : env.tripleRear with _ | dt
  · rcases hwrr : env.wideRear with _ | dw
    · simp [rearPick, htr, hwrr] at hp
    · simp only [rearPick, htr, hwrr] at hp
      have hdd := Option.some.inj hp
      subst hdd
      obtain ⟨hty, hpos, hz⟩ := hwr dw hwrr
      refine ⟨hz, ?_, hpos⟩
      simp [hty]
  · simp only [rearPick, htr] at hp
    have hdd := Option.some.inj hp
    subst hdd
    obtain ⟨hty, hpos, hz⟩ := hwt dt htr
    refine ⟨hz, ?_, hpos⟩
    simp [hty]

/-- Claim C2 (amended): `prepare(rear)` performs no already-running
check: it never fails with `captureSessionAlreadyRunning`, and when one
`prepare(rear)` succeeded, calling it again without an intervening
`stop` succeeds as well — a fresh session simply replaces the previous
one. -/
theorem prepare_no_alreadyRunning_check (env : DeviceEnv) (hr : Bool)
    (s : CameraController) :
    (prepare env (some CameraPosition.rear) hr s).2 ≠
        some (Err.cam CameraControllerError.captureSessionAlreadyRunning) ∧
    ((prepare env (some CameraPosition.rear) hr s).2 = none →
      (prepare env (some CameraPosition.rear) hr
        (prepare env (some CameraPosition.rear) hr s).1).2 = none) := by
  have h1 := prepare_rear_error_eq env hr s
  have h2 := prepare_rear_error_eq env hr (prepare env (some CameraPosition.rear) hr s).1
  constructor
  · rw [h1]
    rcases hp : rearPick env with _ | d
    · simp
    · cases hin : d.deviceInputCreationFails <;>
        cases hlk : d.lockForConfigurationFails <;> simp [hin, hlk]
  · intro hok
    rw [h1] at hok
    rw [h2, hok]

/-- Claim C2 witness: on the single-wide-rear phone, the second of two
back-to-back `prepare(rear)` calls succeeds. -/
theorem prepare_no_alreadyRunning_check_witness :
    (prepare wideEnv (some CameraPosition.rear) false
      (prepare wideEnv (some CameraPosition.rear) false emptyController).1).2 = none :=
  (prepare_no_alreadyRunning_check wideEnv false emptyController).2 (by decide)

/-- Claim C6: after a successful `prepare(rear)` on a well-formed device
environment, the current device's baseline zoom is 2.0 exactly when it
is the multi-lens triple camera; when the environment reports no triple
camera (single wide-angle rear camera) the zoom stays at the device
default 1.0. -/
theorem prepare_rear_baseline_zoom (env : DeviceEnv) (hr : Bool) (s : CameraController)
    (hwf : deviceEnvWF env)
    (hok : (prepare env (some CameraPosition.rear) hr s).2 = none) :
    ∃ d, (prepare env (some CameraPosition.rear) hr s).1.currentCamera = some d ∧
      (d.videoZoomFactor = 2 ↔ d.deviceType = DeviceType.builtInTripleCamera) ∧
      (env.tripleRear = none → d.videoZoomFactor = 1) := by
  obtain ⟨d0, hp, hin, hlk⟩ := prepare_rear_ok_flags env hr s hok
  obtain ⟨hcur, -⟩ := prepare_rear_state_of_ok env hr s d0 hp hin hlk
  obtain ⟨hz1, hiff, -⟩ := rearPick_wf env d0 hwf hp
  refine ⟨baselineConfigured d0, hcur, ?_, ?_⟩
  · rw [baselineConfigured_zoom, baselineConfigured_deviceType]
    by_cases ht : d0.deviceType = DeviceType.builtInTripleCamera
    · simp [ht]
    · simp only [ht, if_false]
      rw [hz1]
      norm_num [ht]
  · intro htrn
    rw [baselineConfigured_zoom]
    have ht : ¬ d0.deviceType = DeviceType.builtInTripleCamera := by
      intro h
      rw [hiff, htrn] at h
      exact Option.noConfusion h
    simp only [ht, if_false]
    exact hz1

/-- The triple-camera fixture environment is well formed. -/
theorem tripleEnv_wf : deviceEnvWF tripleEnv := by
  refine ⟨?_, ?_, ?_⟩ <;> intro d hd <;> simp only [tripleEnv] at hd <;>
    (have h := Option.some.inj hd; cases h; exact ⟨rfl, rfl, rfl⟩)

/-- The single-wide-rear fixture environment is well formed. -/
theorem wideEnv_wf : deviceEnvWF wideEnv := by
  refine ⟨?_, ?_, ?_⟩ <;> intro d hd <;> simp only [wideEnv] at hd
  · exact Option.noConfusion hd
  · have h := Option.some.inj hd; cases h; exact ⟨rfl, rfl, rfl⟩
  · have h := Option.some.inj hd; cases h; exact ⟨rfl, rfl, rfl⟩

/-- Claim C6 witness: on the triple-camera phone, `prepare(rear)` leaves
the current device at baseline zoom 2.0 (the device is the triple
camera). -/
theorem prepare_rear_baseline_zoom_witness :
    ∃ d, (prepare tripleEnv (some CameraPosition.rear) false
        emptyController).1.currentCamera = some d ∧
      (d.videoZoomFactor = 2 ↔ d.deviceType = DeviceType.builtInTripleCamera) ∧
      (tripleEnv.tripleRear = none → d.videoZoomFactor = 1) :=
  prepare_rear_baseline_zoom tripleEnv false emptyController tripleEnv_wf (by decide)

/-- Claim C10: `prepare` with no camera position behaves exactly as
`prepare(rear)`; on success (in a well-formed environment) the selected
current device is the rear pick, at position back — not the front
camera. -/
theorem prepare_nil_position_defaults_rear (env : DeviceEnv) (hr : Bool)
    (s : CameraController) (hwf : deviceEnvWF env)
    (hok : (prepare env none hr s).2 = none) :
    prepare env none hr s = prepare env (some CameraPosition.rear) hr s ∧
    ∃ d0, rearPick env = some d0 ∧
      (prepare env none hr s).1.rearCamera = some d0 ∧
      (prepare env none hr s).1.currentCamera = some (baselineConfigured d0) ∧
      (baselineConfigured d0).position = DevicePosition.back := by
  have hrefl : prepare env none hr s = prepare env (some CameraPosition.rear) hr s := rfl
  rw [hrefl] at hok
  refine ⟨hrefl, ?_⟩
  rw [hrefl]
  obtain ⟨d0, hp, hin, hlk⟩ := prepare_rear_ok_flags env hr s hok
  obtain ⟨hcur, hrear⟩ := prepare_rear_state_of_ok env hr s d0 hp hin hlk
  obtain ⟨-, -, hpos⟩ := rearPick_wf env d0 hwf hp
  exact ⟨d0, hp, hrear, hcur, by rw [baselineConfigured_position]; exact hpos⟩

/-- Claim C10 witness: on the single-wide-rear phone, `prepare` with nil
position selects the rear camera. -/
theorem prepare_nil_position_defaults_rear_witness :
    ∃ d0, rearPick wideEnv = some d0 ∧
      (prepare wideEnv none false emptyController).1.rearCamera = some d0 ∧
      (prepare wideEnv none false emptyController).1.currentCamera =
        some (baselineConfigured d0) ∧
      (baselineConfigured d0).position = DevicePosition.back :=
  (prepare_nil_position_defaults_rear wideEnv false emptyController
    wideEnv_wf (by decide)).2

/-- Claim C7: with a current device selected, `setFlashMode` with a mode
in the photo output's supported set returns no error (when the
configuration lock succeeds), stores the mode — which the next still
capture's settings then carry — and switches an active torch off; with a
mode outside the supported set it returns without error and leaves the
whole controller, device state included, unchanged. -/
theorem setFlashMode_supported_vs_unsupported (s : CameraController)
    (d : CaptureDevice) (m : FlashMode) (hd : s.currentCamera = some d) :
    (m ∈ s.photoOutput.supportedFlashModes → d.lockForConfigurationFails = false →
      (setFlashMode m s).2 = none ∧
      (setFlashMode m s).1.flashMode = m ∧
      (d.torchMode = TorchMode.on → d.hasTorch = true → d.isTorchAvailable = true →
        (setFlashMode m s).1.currentCamera = some { d with torchMode := TorchMode.off }) ∧
      (∀ c, sessionIsRunning (setFlashMode m s).1 = true →
        (captureImage c (setFlashMode m s).1).2 = [Event.hardwareCapture m])) ∧
    (m ∉ s.photoOutput.supportedFlashModes → setFlashMode m s = (s, none)) := by
  constructor
  · intro hmem hlk
    refine ⟨?_, ?_, ?_, ?_⟩
    · simp [setFlashMode, hd, hmem, hlk]
    · simp [setFlashMode, hd, hmem, hlk]
    · intro htm hht hta
      simp [setFlashMode, hd, hmem, hlk, htm, hht, hta]
    · intro c hrun
      have hsc : (setFlashMode m s).1.captureSession = s.captureSession := by
        simp [setFlashMode, hd, hmem, hlk]
      rcases hcs : s.captureSession with _ | cs
      · have hfalse : sessionIsRunning (setFlashMode m s).1 = false := by
          simp [sessionIsRunning, hsc, hcs]
        rw [hfalse] at hrun
        cases hrun
      · have hr : cs.isRunning = true := by
          simpa [sessionIsRunning, hsc, hcs] using hrun
        simp [captureImage, setFlashMode, hd, hmem, hlk, hcs, hr]
  · intro hnm
    simp [setFlashMode, hd, hnm]

/-- Claim C7 witness: setting the supported mode `on` with the torch
active succeeds, stores the mode, and turns the torch off. -/
theorem setFlashMode_supported_vs_unsupported_witness :
    (setFlashMode FlashMode.on torchOnController).2 = none ∧
    (setFlashMode FlashMode.on torchOnController).1.flashMode = FlashMode.on ∧
    (setFlashMode FlashMode.on torchOnController).1.currentCamera =
      some { torchOnDevice with torchMode := TorchMode.off } := by
  have h := (setFlashMode_supported_vs_unsupported torchOnController torchOnDevice
    FlashMode.on rfl).1 (by decide) rfl
  exact ⟨h.1, h.2.1, h.2.2.1 rfl rfl rfl⟩

/-- Claim C9: with a current device selected every getter succeeds —
`getSupportedFlashModes` returns a value and the other getters return
the device's stored values — and a getter can fail only in the state
where no device is selected: whenever `getSupportedFlashModes` errors,
the controller has no current camera (the remaining getters are total by
construction). -/
theorem getters_fail_only_without_device (s : CameraController) (d : CaptureDevice)
    (hd : s.currentCamera = some d) :
    (∃ l, getSupportedFlashModes s = Except.ok l) ∧
    getExposureCompensation s = d.exposureTargetBias ∧
    getExposureCompensationRange s = [d.minExposureTargetBias, d.maxExposureTargetBias] ∧
    getExposureMode s = d.exposureMode.rawValue ∧
    getWhiteBalanceMode s = d.whiteBalanceMode.rawValue ∧
    getSupportedWhiteBalanceModes s =
      d.supportedWhiteBalanceModes.map WhiteBalanceMode.rawValue ∧
    getSupportedPictureSizes s = d.activeFormat.supportedSizes ∧
    (∀ t : CameraController, ∀ e, getSupportedFlashModes t = Except.error e →
      t.currentCamera = none) := by
  refine ⟨?_, ?_, ?_, ?_, ?_, ?_, ?_, ?_⟩
  · simp only [getSupportedFlashModes, hd]
    exact ⟨_, rfl⟩
  · simp [getExposureCompensation, hd]
  · simp [getExposureCompensationRange, hd]
  · simp [getExposureMode, hd]
  · simp [getWhiteBalanceMode, hd]
  · simp [getSupportedWhiteBalanceModes, hd]
  · simp [getSupportedPictureSizes, hd]
  · intro t e he
    rcases ht : t.currentCamera with _ | dt
    · rfl
    · simp [getSupportedFlashModes, ht] at he

/-- Claim C9 witness: on the running fixture the getters report the
current device's values. -/
theorem getters_fail_only_without_device_witness :
    getExposureCompensation runningController = wideRearDevice.exposureTargetBias ∧
    getSupportedPictureSizes runningController = wideRearDevice.activeFormat.supportedSizes := by
  have h := getters_fail_only_without_device runningController wideRearDevice rfl
  exact ⟨h.2.1, h.2.2.2.2.2.2.1⟩

end CameraPreview
